import Mathlib

/-
Shallow embedding of `source/extensions/filters/http/ext_authz/config.cc`:
the ext_authz HTTP filter configuration factory. The two functions embedded
are `ExtAuthzFilterConfig::createFilterFactoryFromProtoTyped` and
`ExtAuthzFilterConfig::createRouteSpecificFilterConfigTyped`. Protobuf
messages are modelled as Lean structures (message-field presence as Option,
durations as millisecond counts); the stateful environment (allocation of
heap objects, the gRPC async-client cache singleton, the cluster manager's
async-client factory) is modelled as explicit state threaded through the
functions; heap-object identity is modelled with allocation ids drawn from a
monotone counter. C++ exceptions become `Except`.
-/

set_option autoImplicit false

namespace EnvoyExtAuthz

/-- Message `envoy.config.core.v3.HttpUri`: only the fields read by config.cc
are kept; `timeout` is a millisecond count, `none` when unset. -/
structure HttpUri where
  timeoutMs : Option Nat
  uri : String
  cluster : String
deriving DecidableEq, Repr

/-- Message `HttpService` of the ext_authz proto: `server_uri` carrying the
timeout, and the path to prepend (`path_prefix` in the proto). -/
structure HttpService where
  server_uri : HttpUri
  pathPrefixStr : String
deriving DecidableEq, Repr

/-- Message `envoy.config.core.v3.GrpcService.GoogleGrpc`: identity of a
google-gRPC target, enough to distinguish descriptors. -/
structure GoogleGrpc where
  target_uri : String
  statPrefixStr : String
deriving DecidableEq, Repr

/-- Message `envoy.config.core.v3.GrpcService`: the `google_grpc` sub-message
(presence-tracked), the envoy-gRPC cluster name, and the `timeout` field in
milliseconds (`none` when unset). -/
structure GrpcService where
  google_grpc : Option GoogleGrpc
  envoy_grpc_cluster : String
  timeoutMs : Option Nat
deriving DecidableEq, Repr

/-- Default (all-unset) instance of `GrpcService`, what the proto3 accessor
returns when the field is not populated. -/
def GrpcService.defaultInstance : GrpcService :=
  { google_grpc := none, envoy_grpc_cluster := "", timeoutMs := none }

/-- Enum `envoy.config.core.v3.ApiVersion`. -/
inductive ApiVersion where
  | AUTO
  | V2
  | V3
deriving DecidableEq, Repr

/-- Message `envoy.extensions.filters.http.ext_authz.v3.ExtAuthz`: the fields
config.cc reads. `http_service` and `grpc_service` are message fields with
presence; `hidden_envoy_deprecated_use_alpha` is the deprecated bool. -/
structure ExtAuthz where
  http_service : Option HttpService
  grpc_service_field : Option GrpcService
  transport_api_version : ApiVersion
  hidden_envoy_deprecated_use_alpha : Bool
deriving DecidableEq, Repr

/-- Accessor `proto_config.grpc_service()`: proto3 semantics, returning the
default instance when the field is unset. -/
def ExtAuthz.grpc_service (p : ExtAuthz) : GrpcService :=
  p.grpc_service_field.getD GrpcService.defaultInstance

/-- Exceptions thrown on the configuration path (`EnvoyException` in the
source): the deprecated `use_alpha` rejection thrown by config.cc, and the
connection manager's failure to produce a factory for an unknown target. -/
inductive EnvoyException where
  | useAlphaDeprecated
  | unknownTargetService
deriving DecidableEq, Repr

/-- State of the gRPC async-client cache singleton: an association list from
service descriptor (value identity, per the spec's canonical key) to handle
id, plus the next fresh handle id. -/
structure AsyncClientCache where
  entries : List (GrpcService × Nat)
  nextHandle : Nat
deriving DecidableEq, Repr

/-- The `Server::Configuration::FactoryContext` environment as far as
config.cc observes it: the async-client cache singleton, a monotone allocator
for heap-object identities, and the set of gRPC services for which the
cluster manager's async-client manager can produce a factory. -/
structure FactoryContext where
  cache : AsyncClientCache
  nextAlloc : Nat
  knownServices : List GrpcService
deriving DecidableEq, Repr

/-- Modelled from the spec: `Grpc::AsyncClientCacheSingleton::
getOrCreateAsyncClientCache` lives outside src/ (only its caller is here).
Per spec section 4.3, the cache is keyed by a canonical encoding of the
target service descriptor (equal-but-not-identical descriptors compare
equal), returns the same handle for equal keys, never constructs two live
handles for the same key, and creates an entry lazily on first reference. -/
def getOrCreateAsyncClientCache (ctx : FactoryContext) (key : GrpcService) :
    Nat × FactoryContext :=
  match ctx.cache.entries.find? (fun e => decide (e.1 = key)) with
  | some e => (e.2, ctx)
  | none =>
      let h := ctx.cache.nextHandle
      (h, { ctx with cache := ⟨(key, h) :: ctx.cache.entries, h + 1⟩ })

/-- Modelled from the spec: `context.clusterManager().grpcAsyncClientManager()
.factoryForGrpcService` lives outside src/. Per spec section 7, the
underlying connection-manager factory fails (throws) when it cannot produce a
client for the target service, e.g. an unknown target. -/
def factoryForGrpcService (ctx : FactoryContext) (svc : GrpcService) :
    Except EnvoyException FactoryContext :=
  if svc ∈ ctx.knownServices then .ok ctx else .error .unknownTargetService

/-- Modelled from the spec: `Config::Utility::getAndCheckTransportVersion`
lives outside src/. Per spec section 6, `transport_api_version` is propagated
verbatim into the constructed RPC client, so the check returns the configured
value unchanged. -/
def getAndCheckTransportVersion (p : ExtAuthz) : ApiVersion :=
  p.transport_api_version

/-- Modelled from the spec: the constant `DefaultTimeout` is declared in
`ext_authz.h`, which is outside src/; spec section 4.2 describes it as the
fixed documented default substituted when the timeout field is absent (its
numeric value, 200 ms in the header, is immaterial to the claims, which only
compare against this constant). -/
def DefaultTimeout : Nat := 200

/-- The narrowing performed by `const uint32_t timeout_ms = ...` in
config.cc: `PROTOBUF_GET_MS_OR_DEFAULT` yields a 64-bit millisecond count
(a proto Duration admits values far beyond 2^32 ms), and the assignment to
`uint32_t` reduces it modulo 2^32. -/
def toUint32 (n : Nat) : Nat := n % 4294967296

/-- The shared `FilterConfig` built first by
`createFilterFactoryFromProtoTyped` (one `make_shared` per configuration
block); `objId` is its heap allocation identity. -/
structure FilterConfig where
  protoConfig : ExtAuthz
  statsPrefixStr : String
  objId : Nat
deriving DecidableEq, Repr

/-- `Filters::Common::ExtAuthz::ClientConfig`, the raw-HTTP client's
configuration: built from the whole proto, the resolved timeout and the path
(`path_prefix` in the proto); `objId` is its heap allocation identity. -/
structure ClientConfig where
  protoConfig : ExtAuthz
  timeoutMs : Nat
  pathPrefixStr : String
  objId : Nat
deriving DecidableEq, Repr

/-- The async client wrapped by a `GrpcClientImpl`: either the shared client
obtained from a cache handle (`async_client_cache->getAsyncClient()`) or a
fresh client produced by `factory->create()` at invocation time. -/
inductive AsyncClientRef where
  | cached (handle : Nat)
  | fresh (clientId : Nat)
deriving DecidableEq, Repr

/-- A concrete authorization client object: `RawHttpClientImpl` or
`GrpcClientImpl`; the final `objId` is the heap allocation identity of the
`make_unique` that produced it. -/
inductive AuthzClient where
  | rawHttpClientImpl (cfg : ClientConfig) (objId : Nat)
  | grpcClientImpl (asyncClient : AsyncClientRef) (timeoutMs : Nat)
      (transportApiVersion : ApiVersion) (objId : Nat)
deriving DecidableEq, Repr

/-- One installed filter instance: the shared `FilterConfig` plus the client
it exclusively owns (`std::make_shared<Filter>(filter_config, move(client))`). -/
structure Filter where
  config : FilterConfig
  client : AuthzClient
deriving DecidableEq, Repr

/-- The `Http::FilterFactoryCb` returned by the factory, defunctionalized:
each constructor records exactly what the corresponding C++ lambda captures
by value at configuration-load time (the `context` reference capture is the
environment passed at invocation). -/
inductive FilterFactoryCb where
  | rawHttp (filter_config : FilterConfig) (client_config : ClientConfig)
  | googleGrpc (async_client_cache : Nat) (filter_config : FilterConfig)
      (timeoutMs : Nat) (protoConfig : ExtAuthz)
      (transportApiVersion : ApiVersion)
  | genericGrpc (grpc_service : GrpcService) (filter_config : FilterConfig)
      (timeoutMs : Nat) (transportApiVersion : ApiVersion) (useAlpha : Bool)
deriving DecidableEq, Repr

/-- Embedding of `ExtAuthzFilterConfig::createFilterFactoryFromProtoTyped`.
Returns the (possibly thrown-out-of) result together with the environment
after the load-time side effects; `.error` models a thrown
`EnvoyException`. Mirrors the source's order: the shared `FilterConfig` is
allocated first, then the branch on `has_http_service()`, then on
`grpc_service().has_google_grpc()` (with the `use_alpha` rejection before the
cache lookup), else the generic-gRPC callback that defers all client-manager
interaction to invocation time. -/
def createFilterFactoryFromProtoTyped (proto_config : ExtAuthz)
    (statsPrefixStr : String) (context : FactoryContext) :
    Except EnvoyException FilterFactoryCb × FactoryContext :=
  let filter_config : FilterConfig :=
    ⟨proto_config, statsPrefixStr, context.nextAlloc⟩
  let context1 : FactoryContext :=
    { context with nextAlloc := context.nextAlloc + 1 }
  match proto_config.http_service with
  | some http_service =>
      let timeout_ms :=
        toUint32 (http_service.server_uri.timeoutMs.getD DefaultTimeout)
      let client_config : ClientConfig :=
        ⟨proto_config, timeout_ms, http_service.pathPrefixStr,
          context1.nextAlloc⟩
      let context2 : FactoryContext :=
        { context1 with nextAlloc := context1.nextAlloc + 1 }
      (.ok (.rawHttp filter_config client_config), context2)
  | none =>
      if (proto_config.grpc_service).google_grpc.isSome then
        if proto_config.hidden_envoy_deprecated_use_alpha then
          (.error .useAlphaDeprecated, context1)
        else
          let timeout_ms :=
            toUint32 ((proto_config.grpc_service).timeoutMs.getD DefaultTimeout)
          let looked := getOrCreateAsyncClientCache context1 proto_config.grpc_service
          (.ok (.googleGrpc looked.1 filter_config timeout_ms proto_config
            (getAndCheckTransportVersion proto_config)), looked.2)
      else
        let timeout_ms :=
          toUint32 ((proto_config.grpc_service).timeoutMs.getD DefaultTimeout)
        (.ok (.genericGrpc proto_config.grpc_service filter_config timeout_ms
          proto_config.transport_api_version
          proto_config.hidden_envoy_deprecated_use_alpha), context1)

/-- Invocation of the returned `Http::FilterFactoryCb` on a
`FilterChainFactoryCallbacks` (one pipeline instantiation): the body of the
corresponding C++ lambda. Each variant constructs a fresh client object with
`make_unique` and installs a `Filter` wrapping the shared `FilterConfig`; the
generic-gRPC variant first asks the cluster manager's async-client manager
for a factory (which may throw) and calls `create()` on it. -/
def invokeCallback (cb : FilterFactoryCb) (context : FactoryContext) :
    Except EnvoyException Filter × FactoryContext :=
  match cb with
  | .rawHttp filter_config client_config =>
      let client : AuthzClient :=
        .rawHttpClientImpl client_config context.nextAlloc
      (.ok ⟨filter_config, client⟩,
        { context with nextAlloc := context.nextAlloc + 1 })
  | .googleGrpc async_client_cache filter_config timeout_ms _proto tv =>
      let client : AuthzClient :=
        .grpcClientImpl (.cached async_client_cache) timeout_ms tv
          context.nextAlloc
      (.ok ⟨filter_config, client⟩,
        { context with nextAlloc := context.nextAlloc + 1 })
  | .genericGrpc grpc_service filter_config timeout_ms tv _useAlpha =>
      match factoryForGrpcService context grpc_service with
      | .error e => (.error e, context)
      | .ok context2 =>
          let client : AuthzClient :=
            .grpcClientImpl (.fresh context2.nextAlloc) timeout_ms tv
              (context2.nextAlloc + 1)
          (.ok ⟨filter_config, client⟩,
            { context2 with nextAlloc := context2.nextAlloc + 2 })

/-- Per-route message `ExtAuthzPerRoute` (fields immaterial to the factory:
it is stored opaquely). -/
structure ExtAuthzPerRoute where
  disabled : Bool
  contextExtensions : List (String × String)
deriving DecidableEq, Repr

/-- `FilterConfigPerRoute`, the RouteOverride value, built from the per-route
proto alone. -/
structure FilterConfigPerRoute where
  protoConfig : ExtAuthzPerRoute
deriving DecidableEq, Repr

/-- The `Server::Configuration::ServerFactoryContext` argument of the
per-route factory (unnamed and unused in the source). -/
structure ServerFactoryContext where
  ctxId : Nat
deriving DecidableEq, Repr

/-- The `ProtobufMessage::ValidationVisitor` argument of the per-route
factory (unnamed and unused in the source). -/
structure ValidationVisitor where
  strict : Bool
deriving DecidableEq, Repr

/-- Embedding of `ExtAuthzFilterConfig::createRouteSpecificFilterConfigTyped`:
`make_shared<FilterConfigPerRoute>(proto_config)`, ignoring the context and
validation-visitor arguments. -/
def createRouteSpecificFilterConfigTyped (proto_config : ExtAuthzPerRoute)
    (_ctx : ServerFactoryContext) (_vv : ValidationVisitor) :
    FilterConfigPerRoute :=
  ⟨proto_config⟩

/-- Projection: the timeout a callback captured at load time. -/
def FilterFactoryCb.timeoutOf : FilterFactoryCb → Nat
  | .rawHttp _ cc => cc.timeoutMs
  | .googleGrpc _ _ t _ _ => t
  | .genericGrpc _ _ t _ _ => t

/-- Projection: the cache handle a callback captured at load time, when it
took the shared (google_grpc) path. -/
def FilterFactoryCb.cacheHandleOf : FilterFactoryCb → Option Nat
  | .googleGrpc h _ _ _ _ => some h
  | _ => none

/-- Projection: the transport API version a callback captured at load time
(none on the raw-HTTP path, which builds no RPC client). -/
def FilterFactoryCb.versionOf : FilterFactoryCb → Option ApiVersion
  | .rawHttp _ _ => none
  | .googleGrpc _ _ _ _ v => some v
  | .genericGrpc _ _ _ v _ => some v

/-- Projection: a client's bounded timeout. -/
def AuthzClient.timeoutOf : AuthzClient → Nat
  | .rawHttpClientImpl cc _ => cc.timeoutMs
  | .grpcClientImpl _ t _ _ => t

/-- Projection: a client's transport API version (RPC clients only). -/
def AuthzClient.versionOf : AuthzClient → Option ApiVersion
  | .rawHttpClientImpl _ _ => none
  | .grpcClientImpl _ _ v _ => some v

/-- Projection: the async client an RPC client wraps. -/
def AuthzClient.asyncRefOf : AuthzClient → Option AsyncClientRef
  | .rawHttpClientImpl _ _ => none
  | .grpcClientImpl r _ _ _ => some r

/-- Projection: a client's heap allocation identity. -/
def AuthzClient.objIdOf : AuthzClient → Nat
  | .rawHttpClientImpl _ i => i
  | .grpcClientImpl _ _ _ i => i

/-- The load-time-captured inputs a client was constructed from, forgetting
the per-invocation fresh identities (the allocation id, and the fresh async
client on the generic path). -/
inductive CapturedInputs where
  | raw (cc : ClientConfig)
  | cachedGrpc (handle : Nat) (timeoutMs : Nat) (v : ApiVersion)
  | freshGrpc (timeoutMs : Nat) (v : ApiVersion)
deriving DecidableEq, Repr

/-- Projection of a client onto its load-time-captured inputs. -/
def AuthzClient.capturedOf : AuthzClient → CapturedInputs
  | .rawHttpClientImpl cc _ => .raw cc
  | .grpcClientImpl (.cached h) t v _ => .cachedGrpc h t v
  | .grpcClientImpl (.fresh _) t v _ => .freshGrpc t v

/-! Concrete configurations and environments used as witnesses. -/

/-- An empty environment: empty cache, allocator at 0, no known services. -/
def emptyCtx : FactoryContext := ⟨⟨[], 0⟩, 0, []⟩

/-- A sample google_grpc service descriptor. -/
def sampleGoogleSvc : GrpcService := ⟨some ⟨"dns:///authz", "ga"⟩, "", some 500⟩

/-- A sample generic (envoy_grpc) service descriptor. -/
def genericSvc : GrpcService := ⟨none, "authz_cluster", some 100⟩

/-- A configuration selecting the google_grpc path, deprecated flag clear. -/
def googleConfig : ExtAuthz := ⟨none, some sampleGoogleSvc, .V3, false⟩

/-- A configuration selecting the google_grpc path with `use_alpha` set. -/
def googleAlphaConfig : ExtAuthz := ⟨none, some sampleGoogleSvc, .V3, true⟩

/-- A configuration selecting the generic-gRPC path, deprecated flag clear. -/
def genericConfig : ExtAuthz := ⟨none, some genericSvc, .V3, false⟩

/-- A configuration selecting the generic-gRPC path with `use_alpha` set. -/
def genericAlphaConfig : ExtAuthz := ⟨none, some genericSvc, .V2, true⟩

/-- A sample `http_service` message with an explicit 250 ms timeout. -/
def sampleHttpService : HttpService := ⟨⟨some 250, "http://authz", "authz"⟩, "/auth"⟩

/-- A configuration with both `http_service` and a google-gRPC `grpc_service`
present. -/
def httpSampleConfig : ExtAuthz := ⟨some sampleHttpService, some sampleGoogleSvc, .V3, false⟩

/-- A configuration with `http_service` present and `use_alpha` set. -/
def alphaHttpConfig : ExtAuthz := ⟨some sampleHttpService, none, .V3, true⟩

/-- A configuration with no `grpc_service` at all (and no `http_service`). -/
def bareConfig : ExtAuthz := ⟨none, none, .V3, false⟩

/-- An environment whose connection manager knows `genericSvc`. -/
def ctxKnown : FactoryContext := ⟨⟨[], 0⟩, 0, [genericSvc]⟩

/-- A second configuration block with the same google-gRPC descriptor as
`googleConfig` but different remaining fields. -/
def googleConfig2 : ExtAuthz := ⟨none, some sampleGoogleSvc, .V2, false⟩

/-- A second configuration block with the same generic descriptor as
`genericConfig` but different remaining fields. -/
def genericConfig2 : ExtAuthz := ⟨none, some genericSvc, .V2, false⟩

/-- An `http_service` whose `server_uri` timeout is 2^32 ms — a value a
proto Duration admits but `uint32_t` cannot hold. -/
def bigTimeoutHttpService : HttpService :=
  ⟨⟨some 4294967296, "http://authz", "authz"⟩, "/big"⟩

/-- A raw-HTTP configuration carrying the 2^32 ms timeout. -/
def bigTimeoutConfig : ExtAuthz :=
  ⟨some bigTimeoutHttpService, none, .V3, false⟩

/-! Helper lemmas: closed forms of the factory on each path, of callback
invocation, and the key properties of the cache lookup. -/

/-- Closed form of the factory on the raw-HTTP path. -/
theorem createFilterFactory_http (p : ExtAuthz) (s : String)
    (ctx : FactoryContext) (hs : HttpService) (h : p.http_service = some hs) :
    createFilterFactoryFromProtoTyped p s ctx =
      (.ok (.rawHttp ⟨p, s, ctx.nextAlloc⟩
        ⟨p, toUint32 (hs.server_uri.timeoutMs.getD DefaultTimeout),
          hs.pathPrefixStr, ctx.nextAlloc + 1⟩),
       { ctx with nextAlloc := ctx.nextAlloc + 2 }) := by
  unfold createFilterFactoryFromProtoTyped
  rw [h]

/-- Closed form of the factory on the google-gRPC path with `use_alpha` set:
it throws, with the cache untouched and only the `FilterConfig` allocated. -/
theorem createFilterFactory_google_alpha (p : ExtAuthz) (s : String)
    (ctx : FactoryContext) (hh : p.http_service = none)
    (hg : (p.grpc_service).google_grpc.isSome = true)
    (ha : p.hidden_envoy_deprecated_use_alpha = true) :
    createFilterFactoryFromProtoTyped p s ctx =
      (.error .useAlphaDeprecated,
       { ctx with nextAlloc := ctx.nextAlloc + 1 }) := by
  unfold createFilterFactoryFromProtoTyped
  rw [hh]
  simp only [hg, ha, if_true]

/-- Closed form of the factory on the google-gRPC path with `use_alpha`
clear: one cache lookup on the load-time environment, handle captured. -/
theorem createFilterFactory_google (p : ExtAuthz) (s : String)
    (ctx : FactoryContext) (hh : p.http_service = none)
    (hg : (p.grpc_service).google_grpc.isSome = true)
    (ha : p.hidden_envoy_deprecated_use_alpha = false) :
    createFilterFactoryFromProtoTyped p s ctx =
      (.ok (.googleGrpc
        (getOrCreateAsyncClientCache
          { ctx with nextAlloc := ctx.nextAlloc + 1 } p.grpc_service).1
        ⟨p, s, ctx.nextAlloc⟩
        (toUint32 ((p.grpc_service).timeoutMs.getD DefaultTimeout))
        p (getAndCheckTransportVersion p)),
       (getOrCreateAsyncClientCache
          { ctx with nextAlloc := ctx.nextAlloc + 1 } p.grpc_service).2) := by
  unfold createFilterFactoryFromProtoTyped
  rw [hh]
  simp only [hg, ha, if_true, Bool.false_eq_true, if_false]

/-- Closed form of the factory on the generic-gRPC path: no cache
interaction, no client-manager interaction, load always succeeds. -/
theorem createFilterFactory_generic (p : ExtAuthz) (s : String)
    (ctx : FactoryContext) (hh : p.http_service = none)
    (hg : (p.grpc_service).google_grpc = none) :
    createFilterFactoryFromProtoTyped p s ctx =
      (.ok (.genericGrpc p.grpc_service ⟨p, s, ctx.nextAlloc⟩
        (toUint32 ((p.grpc_service).timeoutMs.getD DefaultTimeout))
        p.transport_api_version p.hidden_envoy_deprecated_use_alpha),
       { ctx with nextAlloc := ctx.nextAlloc + 1 }) := by
  unfold createFilterFactoryFromProtoTyped
  rw [hh]
  simp only [hg, Option.isSome_none, Bool.false_eq_true, if_false]

/-- Closed form of invoking a raw-HTTP callback: a fresh
`RawHttpClientImpl` per invocation, environment otherwise untouched. -/
theorem invoke_rawHttp (fc : FilterConfig) (cc : ClientConfig)
    (ctx : FactoryContext) :
    invokeCallback (.rawHttp fc cc) ctx =
      (.ok ⟨fc, .rawHttpClientImpl cc ctx.nextAlloc⟩,
       { ctx with nextAlloc := ctx.nextAlloc + 1 }) := rfl

/-- Closed form of invoking a google-gRPC callback: a fresh
`GrpcClientImpl` wrapping the captured cache handle, cache untouched. -/
theorem invoke_google (h : Nat) (fc : FilterConfig) (t : Nat) (pc : ExtAuthz)
    (v : ApiVersion) (ctx : FactoryContext) :
    invokeCallback (.googleGrpc h fc t pc v) ctx =
      (.ok ⟨fc, .grpcClientImpl (.cached h) t v ctx.nextAlloc⟩,
       { ctx with nextAlloc := ctx.nextAlloc + 1 }) := rfl

/-- Closed form of invoking a generic-gRPC callback when the environment's
connection manager knows the service: a fresh async client and a fresh
`GrpcClientImpl` per invocation. -/
theorem invoke_generic_known (svc : GrpcService) (fc : FilterConfig)
    (t : Nat) (v : ApiVersion) (a : Bool) (ctx : FactoryContext)
    (h : svc ∈ ctx.knownServices) :
    invokeCallback (.genericGrpc svc fc t v a) ctx =
      (.ok ⟨fc, .grpcClientImpl (.fresh ctx.nextAlloc) t v (ctx.nextAlloc + 1)⟩,
       { ctx with nextAlloc := ctx.nextAlloc + 2 }) := by
  simp only [invokeCallback, factoryForGrpcService]
  rw [if_pos h]

/-- Closed form of invoking a generic-gRPC callback when the environment's
connection manager cannot produce a factory for the service: it throws at
invocation time. -/
theorem invoke_generic_unknown (svc : GrpcService) (fc : FilterConfig)
    (t : Nat) (v : ApiVersion) (a : Bool) (ctx : FactoryContext)
    (h : svc ∉ ctx.knownServices) :
    invokeCallback (.genericGrpc svc fc t v a) ctx =
      (.error .unknownTargetService, ctx) := by
  simp only [invokeCallback, factoryForGrpcService]
  rw [if_neg h]

/-- The handle returned by the cache lookup depends only on the cache
component of the environment. -/
theorem getOrCreate_congr (c1 c2 : FactoryContext) (key : GrpcService)
    (h : c1.cache = c2.cache) :
    (getOrCreateAsyncClientCache c1 key).1 =
      (getOrCreateAsyncClientCache c2 key).1 ∧
    (getOrCreateAsyncClientCache c1 key).2.cache =
      (getOrCreateAsyncClientCache c2 key).2.cache := by
  unfold getOrCreateAsyncClientCache
  rw [h]
  cases (c2.cache.entries.find? (fun e => decide (e.1 = key))) <;> simp [h]

/-- Looking the same key up again, in any environment whose cache is the one
the first lookup produced, returns the same handle: the spec's "returns the
same handle for equal keys" for two sequential configuration loads. -/
theorem getOrCreate_stable (ctx ctx2 : FactoryContext) (key : GrpcService)
    (h : ctx2.cache = (getOrCreateAsyncClientCache ctx key).2.cache) :
    (getOrCreateAsyncClientCache ctx2 key).1 =
      (getOrCreateAsyncClientCache ctx key).1 := by
  unfold getOrCreateAsyncClientCache at *
  cases hf : ctx.cache.entries.find? (fun e => decide (e.1 = key)) with
  | some e =>
      rw [hf] at h
      simp only [hf]
      rw [h, hf]
  | none =>
      rw [hf] at h
      simp only [hf]
      rw [h]
      simp [List.find?]

/-- The cache lookup leaves the allocator and known-service set unchanged. -/
theorem getOrCreate_frame (ctx : FactoryContext) (key : GrpcService) :
    (getOrCreateAsyncClientCache ctx key).2.nextAlloc = ctx.nextAlloc ∧
    (getOrCreateAsyncClientCache ctx key).2.knownServices = ctx.knownServices := by
  unfold getOrCreateAsyncClientCache
  cases (ctx.cache.entries.find? (fun e => decide (e.1 = key))) <;> simp

/-- Two clients with different allocation identities are different objects. -/
theorem AuthzClient.ne_of_objId (a b : AuthzClient)
    (h : a.objIdOf ≠ b.objIdOf) : a ≠ b :=
  fun e => h (congrArg AuthzClient.objIdOf e)

/-! Claim theorems. -/

/-- Claim C2 (confirmed): for every configuration in which `http_service` is
present, `createFilterFactoryFromProtoTyped` resolves the raw-HTTP transport
variant and builds a raw-HTTP client callback, even when `grpc_service` is
also present — the `http_service` branch is taken first. -/
theorem http_service_selects_rawHttp (p : ExtAuthz) (s : String)
    (ctx : FactoryContext) (hs : HttpService)
    (h : p.http_service = some hs) :
    ∃ fc cc,
      (createFilterFactoryFromProtoTyped p s ctx).1 = .ok (.rawHttp fc cc) ∧
      ∀ ctx2, ∃ i, (invokeCallback (.rawHttp fc cc) ctx2).1 =
        .ok ⟨fc, .rawHttpClientImpl cc i⟩ := by
  refine ⟨⟨p, s, ctx.nextAlloc⟩,
    ⟨p, toUint32 (hs.server_uri.timeoutMs.getD DefaultTimeout),
      hs.pathPrefixStr, ctx.nextAlloc + 1⟩, ?_, ?_⟩
  · rw [createFilterFactory_http p s ctx hs h]
  · intro ctx2
    exact ⟨ctx2.nextAlloc, by rw [invoke_rawHttp]⟩

/-- Claim C2 witness: a configuration carrying both `http_service` and a
google-gRPC `grpc_service` still resolves to the raw-HTTP variant. -/
theorem http_service_selects_rawHttp_witness :
    httpSampleConfig.http_service = some sampleHttpService ∧
    httpSampleConfig.grpc_service_field = some sampleGoogleSvc ∧
    ∃ fc cc,
      (createFilterFactoryFromProtoTyped httpSampleConfig "ext_authz"
        emptyCtx).1 = .ok (.rawHttp fc cc) ∧
      ∀ ctx2, ∃ i, (invokeCallback (.rawHttp fc cc) ctx2).1 =
        .ok ⟨fc, .rawHttpClientImpl cc i⟩ :=
  ⟨rfl, rfl, http_service_selects_rawHttp httpSampleConfig "ext_authz"
    emptyCtx sampleHttpService rfl⟩

/-- Claim C9 (confirmed): `createRouteSpecificFilterConfigTyped` builds the
route override from the per-route fragment alone; the server context and the
validation visitor are unused, so equal fragments give equal overrides. -/
theorem routeSpecific_depends_only_on_fragment (pc : ExtAuthzPerRoute)
    (c1 c2 : ServerFactoryContext) (v1 v2 : ValidationVisitor) :
    createRouteSpecificFilterConfigTyped pc c1 v1 =
      createRouteSpecificFilterConfigTyped pc c2 v2 ∧
    createRouteSpecificFilterConfigTyped pc c1 v1 = ⟨pc⟩ :=
  ⟨rfl, rfl⟩

/-- Claim C10 (confirmed): with `http_service` absent and
`grpc_service.google_grpc` unset — in particular with no `grpc_service` at
all — the factory succeeds at load time with the generic-gRPC callback; no
error is raised for "no expected variant present". -/
theorem no_variant_still_generic (p : ExtAuthz) (s : String)
    (ctx : FactoryContext) (hh : p.http_service = none)
    (hg : (p.grpc_service).google_grpc = none) :
    (createFilterFactoryFromProtoTyped p s ctx).1 =
      .ok (.genericGrpc p.grpc_service ⟨p, s, ctx.nextAlloc⟩
        (toUint32 ((p.grpc_service).timeoutMs.getD DefaultTimeout))
        p.transport_api_version p.hidden_envoy_deprecated_use_alpha) := by
  rw [createFilterFactory_generic p s ctx hh hg]

/-- Claim C10 witness: the configuration with no transport selector at all
loads successfully as a generic-gRPC callback. -/
theorem no_variant_still_generic_witness :
    bareConfig.http_service = none ∧ bareConfig.grpc_service_field = none ∧
    (createFilterFactoryFromProtoTyped bareConfig "" emptyCtx).1 =
      .ok (.genericGrpc bareConfig.grpc_service ⟨bareConfig, "", 0⟩
        (toUint32 ((bareConfig.grpc_service).timeoutMs.getD DefaultTimeout))
        bareConfig.transport_api_version
        bareConfig.hidden_envoy_deprecated_use_alpha) :=
  ⟨rfl, rfl, no_variant_still_generic bareConfig "" emptyCtx rfl rfl⟩

/-- Claim C1 counterexample: the deprecated-flag rejection is not performed
"regardless of transport variant". A configuration with `use_alpha` set and
`http_service` present loads successfully as a raw-HTTP callback, and a
generic-gRPC configuration with `use_alpha` set also loads successfully
(the flag is even captured, unchecked, into the callback). -/
theorem use_alpha_not_rejected_on_all_paths :
    alphaHttpConfig.hidden_envoy_deprecated_use_alpha = true ∧
    (createFilterFactoryFromProtoTyped alphaHttpConfig "ext_authz"
      emptyCtx).1 =
      .ok (.rawHttp ⟨alphaHttpConfig, "ext_authz", 0⟩
        ⟨alphaHttpConfig, 250, "/auth", 1⟩) ∧
    genericAlphaConfig.hidden_envoy_deprecated_use_alpha = true ∧
    (createFilterFactoryFromProtoTyped genericAlphaConfig "ext_authz"
      emptyCtx).1 =
      .ok (.genericGrpc genericSvc ⟨genericAlphaConfig, "ext_authz", 0⟩ 100
        .V2 true) :=
  ⟨rfl, rfl, rfl, rfl⟩

/-- Claim C1 (amended, confirmed): with `use_alpha` set the factory throws
the configuration error — before any client is allocated and with the cache
untouched (only the shared `FilterConfig` has been allocated) — exactly when
the configuration selects the google-gRPC variant; on the raw-HTTP and
generic-gRPC variants the flag is not checked and loading succeeds. -/
theorem use_alpha_rejected_on_google_path (p : ExtAuthz) (s : String)
    (ctx : FactoryContext)
    (ha : p.hidden_envoy_deprecated_use_alpha = true) :
    (p.http_service = none → (p.grpc_service).google_grpc.isSome = true →
      createFilterFactoryFromProtoTyped p s ctx =
        (.error .useAlphaDeprecated,
         { ctx with nextAlloc := ctx.nextAlloc + 1 })) ∧
    (∀ hs, p.http_service = some hs →
      ∃ cb, (createFilterFactoryFromProtoTyped p s ctx).1 = .ok cb) ∧
    (p.http_service = none → (p.grpc_service).google_grpc = none →
      ∃ cb, (createFilterFactoryFromProtoTyped p s ctx).1 = .ok cb) := by
  refine ⟨fun hh hg => ?_, fun hs h => ?_, fun hh hg => ?_⟩
  · exact createFilterFactory_google_alpha p s ctx hh hg ha
  · exact ⟨_, by rw [createFilterFactory_http p s ctx hs h]⟩
  · exact ⟨_, by rw [createFilterFactory_generic p s ctx hh hg]⟩

/-- Claim C1 witness: the google-gRPC configuration with `use_alpha` set is
rejected at load time with the cache untouched. -/
theorem use_alpha_rejected_on_google_path_witness :
    googleAlphaConfig.hidden_envoy_deprecated_use_alpha = true ∧
    createFilterFactoryFromProtoTyped googleAlphaConfig "" emptyCtx =
      (.error .useAlphaDeprecated, { emptyCtx with nextAlloc := 1 }) :=
  ⟨rfl, (use_alpha_rejected_on_google_path googleAlphaConfig "" emptyCtx
    rfl).1 rfl rfl⟩

/-- Claim C4 counterexample: construction errors are not all surfaced at
load time. For a generic-gRPC configuration whose target the environment's
connection manager cannot serve, loading succeeds, and the connection-manager
failure surfaces only when the returned callback is invoked. -/
theorem factory_error_deferred_on_generic_path :
    (createFilterFactoryFromProtoTyped genericConfig "" emptyCtx).1 =
      .ok (.genericGrpc genericSvc ⟨genericConfig, "", 0⟩ 100 .V3 false) ∧
    (invokeCallback
      (.genericGrpc genericSvc ⟨genericConfig, "", 0⟩ 100 .V3 false)
      emptyCtx).1 = .error .unknownTargetService := by
  constructor
  · rfl
  · exact congrArg Prod.fst (invoke_generic_unknown genericSvc
      ⟨genericConfig, "", 0⟩ 100 .V3 false emptyCtx (by decide))

/-- Claim C4 (amended, confirmed): on the raw-HTTP and google-gRPC paths no
construction error is deferred — every callback those paths return succeeds
unconditionally at invocation, in every environment — while the generic-gRPC
path always succeeds at load time, whether or not the environment's
connection manager can produce a client for the configured service, and the
connection-manager failure surfaces only at callback-invocation
(pipeline-instantiation) time. -/
theorem construction_error_placement (p : ExtAuthz) (s : String)
    (ctx : FactoryContext) :
    (∀ hs cb, p.http_service = some hs →
      (createFilterFactoryFromProtoTyped p s ctx).1 = .ok cb →
      ∀ ctx2, ∃ f, invokeCallback cb ctx2 =
        (.ok f, { ctx2 with nextAlloc := ctx2.nextAlloc + 1 })) ∧
    (∀ cb, p.http_service = none →
      (p.grpc_service).google_grpc.isSome = true →
      (createFilterFactoryFromProtoTyped p s ctx).1 = .ok cb →
      ∀ ctx2, ∃ f, invokeCallback cb ctx2 =
        (.ok f, { ctx2 with nextAlloc := ctx2.nextAlloc + 1 })) ∧
    (p.http_service = none → (p.grpc_service).google_grpc = none →
      ∃ fc, (createFilterFactoryFromProtoTyped p s ctx).1 =
          .ok (.genericGrpc p.grpc_service fc
            (toUint32 ((p.grpc_service).timeoutMs.getD DefaultTimeout))
            p.transport_api_version p.hidden_envoy_deprecated_use_alpha) ∧
        ∀ ctx2, p.grpc_service ∉ ctx2.knownServices →
          (invokeCallback (.genericGrpc p.grpc_service fc
            (toUint32 ((p.grpc_service).timeoutMs.getD DefaultTimeout))
            p.transport_api_version p.hidden_envoy_deprecated_use_alpha)
            ctx2).1 = .error .unknownTargetService) := by
  refine ⟨fun hs cb h hcb ctx2 => ?_, fun cb hh hg hcb ctx2 => ?_,
    fun hh hg => ?_⟩
  · rw [createFilterFactory_http p s ctx hs h] at hcb
    replace hcb := Except.ok.inj hcb
    subst hcb
    exact ⟨_, invoke_rawHttp _ _ ctx2⟩
  · cases ha : p.hidden_envoy_deprecated_use_alpha with
    | true =>
        rw [createFilterFactory_google_alpha p s ctx hh hg ha] at hcb
        cases hcb
    | false =>
        rw [createFilterFactory_google p s ctx hh hg ha] at hcb
        replace hcb := Except.ok.inj hcb
        subst hcb
        exact ⟨_, invoke_google _ _ _ _ _ ctx2⟩
  · refine ⟨⟨p, s, ctx.nextAlloc⟩, ?_, fun ctx2 hm => ?_⟩
    · rw [createFilterFactory_generic p s ctx hh hg]
    · rw [invoke_generic_unknown _ _ _ _ _ _ hm]

/-- Claim C4 witness: the raw-HTTP and google-gRPC callbacks of the sample
configurations succeed at every invocation, while the generic-gRPC
configuration loads successfully in an environment that knows no service and
its callback throws there on invocation. -/
theorem construction_error_placement_witness :
    (∀ ctx2, ∃ f, invokeCallback
      (.rawHttp ⟨httpSampleConfig, "ext_authz", 0⟩
        ⟨httpSampleConfig, 250, "/auth", 1⟩) ctx2 =
      (.ok f, { ctx2 with nextAlloc := ctx2.nextAlloc + 1 })) ∧
    (∀ ctx2, ∃ f, invokeCallback
      (.googleGrpc 0 ⟨googleConfig, "", 0⟩ 500 googleConfig .V3) ctx2 =
      (.ok f, { ctx2 with nextAlloc := ctx2.nextAlloc + 1 })) ∧
    (∃ fc, (createFilterFactoryFromProtoTyped genericConfig "" emptyCtx).1 =
        .ok (.genericGrpc genericConfig.grpc_service fc
          (toUint32 ((genericConfig.grpc_service).timeoutMs.getD
            DefaultTimeout))
          genericConfig.transport_api_version
          genericConfig.hidden_envoy_deprecated_use_alpha) ∧
      ∀ ctx2, genericConfig.grpc_service ∉ ctx2.knownServices →
        (invokeCallback (.genericGrpc genericConfig.grpc_service fc
          (toUint32 ((genericConfig.grpc_service).timeoutMs.getD
            DefaultTimeout))
          genericConfig.transport_api_version
          genericConfig.hidden_envoy_deprecated_use_alpha)
          ctx2).1 = .error .unknownTargetService) :=
  ⟨(construction_error_placement httpSampleConfig "ext_authz" emptyCtx).1
      sampleHttpService
      (.rawHttp ⟨httpSampleConfig, "ext_authz", 0⟩
        ⟨httpSampleConfig, 250, "/auth", 1⟩) rfl rfl,
    (construction_error_placement googleConfig "" emptyCtx).2.1
      (.googleGrpc 0 ⟨googleConfig, "", 0⟩ 500 googleConfig .V3)
      rfl rfl rfl,
    (construction_error_placement genericConfig "" emptyCtx).2.2 rfl rfl⟩

/-- Claim C5 counterexample: the resolved timeout is not always the
configured field's exact millisecond value — config.cc narrows it into
`const uint32_t`, so a configured `server_uri` timeout of 2^32 ms resolves
to 0, not 2^32. -/
theorem timeout_wraps_at_uint32 :
    bigTimeoutConfig.http_service = some bigTimeoutHttpService ∧
    bigTimeoutHttpService.server_uri.timeoutMs = some 4294967296 ∧
    (createFilterFactoryFromProtoTyped bigTimeoutConfig "" emptyCtx).1 =
      .ok (.rawHttp ⟨bigTimeoutConfig, "", 0⟩
        ⟨bigTimeoutConfig, 0, "/big", 1⟩) ∧
    (0 : Nat) ≠ 4294967296 :=
  ⟨rfl, rfl, rfl, by decide⟩

/-- Claim C5 (amended, confirmed): the resolved timeout equals the
configured field's millisecond value narrowed to `uint32_t` (reduced modulo
2^32 — hence the exact value whenever it is below 2^32) when the field is
present, and `DefaultTimeout` when absent; the raw-HTTP path reads
`http_service.server_uri`, both gRPC paths read `grpc_service` (whatever the
deprecated flag, whenever a callback is returned at all); the value is
resolved once at load time and every client the callback constructs carries
the captured value, whatever the invocation environment. -/
theorem timeout_resolution_mod_uint32 (p : ExtAuthz) (s : String)
    (ctx : FactoryContext) :
    (∀ hs, p.http_service = some hs →
      ∃ cb, (createFilterFactoryFromProtoTyped p s ctx).1 = .ok cb ∧
        cb.timeoutOf =
          toUint32 (hs.server_uri.timeoutMs.getD DefaultTimeout)) ∧
    (∀ cb, p.http_service = none →
      (createFilterFactoryFromProtoTyped p s ctx).1 = .ok cb →
      cb.timeoutOf =
        toUint32 ((p.grpc_service).timeoutMs.getD DefaultTimeout)) ∧
    (∀ cb, (createFilterFactoryFromProtoTyped p s ctx).1 = .ok cb →
      ∀ ctx2 f, (invokeCallback cb ctx2).1 = .ok f →
        f.client.timeoutOf = cb.timeoutOf) ∧
    (∀ n, n < 4294967296 → toUint32 n = n) := by
  refine ⟨fun hs h => ?_, fun cb hh hcb => ?_, fun cb _ ctx2 f hf => ?_,
    fun n hn => Nat.mod_eq_of_lt hn⟩
  · refine ⟨.rawHttp ⟨p, s, ctx.nextAlloc⟩
      ⟨p, toUint32 (hs.server_uri.timeoutMs.getD DefaultTimeout),
        hs.pathPrefixStr, ctx.nextAlloc + 1⟩, ?_, rfl⟩
    rw [createFilterFactory_http p s ctx hs h]
  · cases hg : (p.grpc_service).google_grpc with
    | some g =>
        have hg2 : (p.grpc_service).google_grpc.isSome = true := by
          rw [hg]; rfl
        cases ha : p.hidden_envoy_deprecated_use_alpha with
        | true =>
            rw [createFilterFactory_google_alpha p s ctx hh hg2 ha] at hcb
            cases hcb
        | false =>
            rw [createFilterFactory_google p s ctx hh hg2 ha] at hcb
            replace hcb := Except.ok.inj hcb
            subst hcb
            rfl
    | none =>
        rw [createFilterFactory_generic p s ctx hh hg] at hcb
        replace hcb := Except.ok.inj hcb
        subst hcb
        rfl
  · cases cb with
    | rawHttp fc cc =>
        rw [invoke_rawHttp] at hf
        cases hf
        rfl
    | googleGrpc h fc t pc v =>
        rw [invoke_google] at hf
        cases hf
        rfl
    | genericGrpc svc fc t v a =>
        by_cases hm : svc ∈ ctx2.knownServices
        · rw [invoke_generic_known svc fc t v a ctx2 hm] at hf
          cases hf
          rfl
        · rw [invoke_generic_unknown svc fc t v a ctx2 hm] at hf
          cases hf

/-- Claim C5 witness: an explicit 250 ms `server_uri` timeout resolves to
exactly 250 (below 2^32 the narrowing is the identity), a generic-gRPC
configuration with the deprecated flag set still resolves its 100 ms
`grpc_service` timeout, and an absent timeout resolves to
`DefaultTimeout`. -/
theorem timeout_resolution_mod_uint32_witness :
    (∃ cb, (createFilterFactoryFromProtoTyped httpSampleConfig "ext_authz"
        emptyCtx).1 = .ok cb ∧ cb.timeoutOf = 250) ∧
    (FilterFactoryCb.genericGrpc genericSvc ⟨genericAlphaConfig, "", 0⟩ 100
      .V2 true).timeoutOf = 100 ∧
    (∃ cb, (createFilterFactoryFromProtoTyped bareConfig "" emptyCtx).1 =
        .ok cb ∧ cb.timeoutOf = DefaultTimeout) := by
  refine ⟨?_, ?_, ?_⟩
  · have h := (timeout_resolution_mod_uint32 httpSampleConfig "ext_authz"
      emptyCtx).1 sampleHttpService rfl
    simpa [sampleHttpService, toUint32] using h
  · have h := (timeout_resolution_mod_uint32 genericAlphaConfig ""
      emptyCtx).2.1
      (.genericGrpc genericSvc ⟨genericAlphaConfig, "", 0⟩ 100 .V2 true)
      rfl rfl
    simpa [genericAlphaConfig, genericSvc, ExtAuthz.grpc_service, toUint32]
      using h
  · have h := (timeout_resolution_mod_uint32 bareConfig "" emptyCtx).2.1
      (.genericGrpc bareConfig.grpc_service ⟨bareConfig, "", 0⟩
        (toUint32 ((bareConfig.grpc_service).timeoutMs.getD DefaultTimeout))
        bareConfig.transport_api_version
        bareConfig.hidden_envoy_deprecated_use_alpha)
      rfl rfl
    exact ⟨_, rfl, by
      simpa [bareConfig, ExtAuthz.grpc_service, GrpcService.defaultInstance,
        toUint32, DefaultTimeout] using h⟩

/-- Claim C7 counterexample: the concrete client is not captured at
configuration time and reused — the load-time callback carries only the
resolved configuration (`FilterConfig`, `ClientConfig`), and each invocation
constructs a fresh client object: two invocations yield clients with
distinct identities. -/
theorem client_constructed_per_invocation :
    createFilterFactoryFromProtoTyped httpSampleConfig "ext_authz" emptyCtx =
      (.ok (.rawHttp ⟨httpSampleConfig, "ext_authz", 0⟩
        ⟨httpSampleConfig, 250, "/auth", 1⟩), ⟨⟨[], 0⟩, 2, []⟩) ∧
    (invokeCallback (.rawHttp ⟨httpSampleConfig, "ext_authz", 0⟩
      ⟨httpSampleConfig, 250, "/auth", 1⟩) ⟨⟨[], 0⟩, 2, []⟩).1 =
      .ok ⟨⟨httpSampleConfig, "ext_authz", 0⟩,
        .rawHttpClientImpl ⟨httpSampleConfig, 250, "/auth", 1⟩ 2⟩ ∧
    (invokeCallback (.rawHttp ⟨httpSampleConfig, "ext_authz", 0⟩
      ⟨httpSampleConfig, 250, "/auth", 1⟩)
      (invokeCallback (.rawHttp ⟨httpSampleConfig, "ext_authz", 0⟩
        ⟨httpSampleConfig, 250, "/auth", 1⟩) ⟨⟨[], 0⟩, 2, []⟩).2).1 =
      .ok ⟨⟨httpSampleConfig, "ext_authz", 0⟩,
        .rawHttpClientImpl ⟨httpSampleConfig, 250, "/auth", 1⟩ 3⟩ ∧
    (AuthzClient.rawHttpClientImpl ⟨httpSampleConfig, 250, "/auth", 1⟩ 2 ≠
      AuthzClient.rawHttpClientImpl ⟨httpSampleConfig, 250, "/auth", 1⟩ 3) :=
  ⟨rfl, rfl, rfl, by decide⟩

/-- Claim C7 (amended, confirmed): what is captured once at configuration
time and shared by all filter instances of a block is the resolved input —
the `FilterConfig` and, per path, the `ClientConfig`, cache handle, timeout
and transport version — while each callback invocation constructs a fresh
client from those captured inputs: two instances agree on configuration and
captured inputs but own distinct client objects. -/
theorem captured_inputs_shared_client_fresh (p : ExtAuthz) (s : String)
    (ctx ctx1 : FactoryContext) (cb : FilterFactoryCb) (f1 f2 : Filter)
    (_hcb : (createFilterFactoryFromProtoTyped p s ctx).1 = .ok cb)
    (h1 : (invokeCallback cb ctx1).1 = .ok f1)
    (h2 : (invokeCallback cb (invokeCallback cb ctx1).2).1 = .ok f2) :
    f1.config = f2.config ∧ f1.client.capturedOf = f2.client.capturedOf ∧
      f1.client ≠ f2.client := by
  cases cb with
  | rawHttp fc cc =>
      rw [invoke_rawHttp] at h1 h2
      cases h1
      rw [invoke_rawHttp] at h2
      cases h2
      refine ⟨rfl, rfl, by simp [AuthzClient.rawHttpClientImpl.injEq]⟩
  | googleGrpc h fc t pc v =>
      rw [invoke_google] at h1 h2
      cases h1
      rw [invoke_google] at h2
      cases h2
      refine ⟨rfl, rfl, by simp [AuthzClient.grpcClientImpl.injEq]⟩
  | genericGrpc svc fc t v a =>
      by_cases hm : svc ∈ ctx1.knownServices
      · rw [invoke_generic_known svc fc t v a ctx1 hm] at h1 h2
        cases h1
        have hm2 : svc ∈
            ({ ctx1 with nextAlloc := ctx1.nextAlloc + 2 } :
              FactoryContext).knownServices := hm
        rw [invoke_generic_known svc fc t v a _ hm2] at h2
        cases h2
        refine ⟨rfl, rfl, by
          simp [AuthzClient.grpcClientImpl.injEq, AuthzClient.capturedOf]⟩
      · rw [invoke_generic_unknown svc fc t v a ctx1 hm] at h1
        cases h1

/-- Claim C7 witness: the raw-HTTP callback of the sample configuration,
invoked twice, yields two filter instances sharing the captured
configuration but owning distinct clients. -/
theorem captured_inputs_shared_client_fresh_witness :
    (createFilterFactoryFromProtoTyped httpSampleConfig "ext_authz"
      emptyCtx).1 = .ok (.rawHttp ⟨httpSampleConfig, "ext_authz", 0⟩
        ⟨httpSampleConfig, 250, "/auth", 1⟩) ∧
    (Filter.mk ⟨httpSampleConfig, "ext_authz", 0⟩
        (.rawHttpClientImpl ⟨httpSampleConfig, 250, "/auth", 1⟩ 0)).config =
      (Filter.mk ⟨httpSampleConfig, "ext_authz", 0⟩
        (.rawHttpClientImpl ⟨httpSampleConfig, 250, "/auth", 1⟩ 1)).config ∧
    (Filter.mk ⟨httpSampleConfig, "ext_authz", 0⟩
        (.rawHttpClientImpl ⟨httpSampleConfig, 250, "/auth", 1⟩ 0)).client.capturedOf =
      (Filter.mk ⟨httpSampleConfig, "ext_authz", 0⟩
        (.rawHttpClientImpl ⟨httpSampleConfig, 250, "/auth", 1⟩ 1)).client.capturedOf ∧
    (Filter.mk ⟨httpSampleConfig, "ext_authz", 0⟩
        (.rawHttpClientImpl ⟨httpSampleConfig, 250, "/auth", 1⟩ 0)).client ≠
      (Filter.mk ⟨httpSampleConfig, "ext_authz", 0⟩
        (.rawHttpClientImpl ⟨httpSampleConfig, 250, "/auth", 1⟩ 1)).client := by
  have h := captured_inputs_shared_client_fresh httpSampleConfig "ext_authz"
    emptyCtx emptyCtx
    (.rawHttp ⟨httpSampleConfig, "ext_authz", 0⟩
      ⟨httpSampleConfig, 250, "/auth", 1⟩)
    ⟨⟨httpSampleConfig, "ext_authz", 0⟩,
      .rawHttpClientImpl ⟨httpSampleConfig, 250, "/auth", 1⟩ 0⟩
    ⟨⟨httpSampleConfig, "ext_authz", 0⟩,
      .rawHttpClientImpl ⟨httpSampleConfig, 250, "/auth", 1⟩ 1⟩
    rfl rfl rfl
  exact ⟨rfl, h.1, h.2.1, h.2.2⟩

/-- Claim C8 (confirmed): on both gRPC paths the configured
`transport_api_version` is propagated unchanged into the callback and into
every RPC client it constructs. -/
theorem transport_version_verbatim (p : ExtAuthz) (s : String)
    (ctx : FactoryContext) (cb : FilterFactoryCb)
    (hh : p.http_service = none)
    (hcb : (createFilterFactoryFromProtoTyped p s ctx).1 = .ok cb) :
    cb.versionOf = some p.transport_api_version ∧
    ∀ ctx2 f, (invokeCallback cb ctx2).1 = .ok f →
      f.client.versionOf = some p.transport_api_version := by
  cases hg : (p.grpc_service).google_grpc with
  | some g =>
      have hg2 : (p.grpc_service).google_grpc.isSome = true := by
        rw [hg]; rfl
      cases ha : p.hidden_envoy_deprecated_use_alpha with
      | true =>
          rw [createFilterFactory_google_alpha p s ctx hh hg2 ha] at hcb
          cases hcb
      | false =>
          rw [createFilterFactory_google p s ctx hh hg2 ha] at hcb
          cases hcb
          refine ⟨rfl, fun ctx2 f hf => ?_⟩
          rw [invoke_google] at hf
          cases hf
          rfl
  | none =>
      rw [createFilterFactory_generic p s ctx hh hg] at hcb
      cases hcb
      refine ⟨rfl, fun ctx2 f hf => ?_⟩
      by_cases hm : p.grpc_service ∈ ctx2.knownServices
      · rw [invoke_generic_known _ _ _ _ _ _ hm] at hf
        cases hf
        rfl
      · rw [invoke_generic_unknown _ _ _ _ _ _ hm] at hf
        cases hf

/-- Claim C8 witness: the google-gRPC sample configuration (V3) captures V3
in the callback and in every constructed client. -/
theorem transport_version_verbatim_witness :
    googleConfig.http_service = none ∧
    (createFilterFactoryFromProtoTyped googleConfig "" emptyCtx).1 =
      .ok (.googleGrpc 0 ⟨googleConfig, "", 0⟩ 500 googleConfig .V3) ∧
    ((FilterFactoryCb.googleGrpc 0 ⟨googleConfig, "", 0⟩ 500 googleConfig
        .V3).versionOf = some googleConfig.transport_api_version ∧
      ∀ ctx2 f, (invokeCallback (.googleGrpc 0 ⟨googleConfig, "", 0⟩ 500
          googleConfig .V3) ctx2).1 = .ok f →
        f.client.versionOf = some googleConfig.transport_api_version) :=
  ⟨rfl, rfl, transport_version_verbatim googleConfig "" emptyCtx
    (.googleGrpc 0 ⟨googleConfig, "", 0⟩ 500 googleConfig .V3) rfl rfl⟩

/-- Claim C3 (confirmed): on the shared (google_grpc) path the cache lookup
happens once at load time — the captured handle is the result of one
`getOrCreateAsyncClientCache` on the load-time environment — every filter
instance created from the block wraps that same handle (and invocation never
touches the cache); and a second configuration block with an equal
`grpc_service` descriptor captures the identical underlying handle. -/
theorem shared_cache_handle_identity (p1 p2 : ExtAuthz) (s1 s2 : String)
    (ctx0 : FactoryContext)
    (h1h : p1.http_service = none)
    (h1g : (p1.grpc_service).google_grpc.isSome = true)
    (h1a : p1.hidden_envoy_deprecated_use_alpha = false)
    (h2h : p2.http_service = none)
    (h2a : p2.hidden_envoy_deprecated_use_alpha = false)
    (hsvc : p2.grpc_service = p1.grpc_service) :
    ∃ h fc1 fc2 t1 t2 v1 v2,
      (createFilterFactoryFromProtoTyped p1 s1 ctx0).1 =
        .ok (.googleGrpc h fc1 t1 p1 v1) ∧
      (createFilterFactoryFromProtoTyped p2 s2
        (createFilterFactoryFromProtoTyped p1 s1 ctx0).2).1 =
        .ok (.googleGrpc h fc2 t2 p2 v2) ∧
      h = (getOrCreateAsyncClientCache ctx0 p1.grpc_service).1 ∧
      ∀ ctx2, (invokeCallback (.googleGrpc h fc1 t1 p1 v1) ctx2).1 =
          .ok ⟨fc1, .grpcClientImpl (.cached h) t1 v1 ctx2.nextAlloc⟩ ∧
        (invokeCallback (.googleGrpc h fc1 t1 p1 v1) ctx2).2.cache =
          ctx2.cache := by
  have h2g : (p2.grpc_service).google_grpc.isSome = true := by
    rw [hsvc]; exact h1g
  have L1 := createFilterFactory_google p1 s1 ctx0 h1h h1g h1a
  have L2 := createFilterFactory_google p2 s2
    (createFilterFactoryFromProtoTyped p1 s1 ctx0).2 h2h h2g h2a
  refine ⟨(getOrCreateAsyncClientCache
      { ctx0 with nextAlloc := ctx0.nextAlloc + 1 } p1.grpc_service).1,
    ⟨p1, s1, ctx0.nextAlloc⟩,
    ⟨p2, s2, (createFilterFactoryFromProtoTyped p1 s1 ctx0).2.nextAlloc⟩,
    toUint32 ((p1.grpc_service).timeoutMs.getD DefaultTimeout),
    toUint32 ((p2.grpc_service).timeoutMs.getD DefaultTimeout),
    getAndCheckTransportVersion p1, getAndCheckTransportVersion p2,
    ?_, ?_, ?_, ?_⟩
  · rw [L1]
  · have hstab := getOrCreate_stable
      { ctx0 with nextAlloc := ctx0.nextAlloc + 1 }
      { (createFilterFactoryFromProtoTyped p1 s1 ctx0).2 with
        nextAlloc :=
          (createFilterFactoryFromProtoTyped p1 s1 ctx0).2.nextAlloc + 1 }
      p1.grpc_service (by rw [L1])
    rw [L2, hsvc, hstab]
  · exact (getOrCreate_congr
      { ctx0 with nextAlloc := ctx0.nextAlloc + 1 } ctx0
      p1.grpc_service rfl).1
  · intro ctx2
    exact ⟨by rw [invoke_google], by rw [invoke_google]⟩

/-- Claim C3 witness: two configuration blocks with equal google-gRPC
descriptors, loaded in sequence, capture the identical cache handle, and
every invocation wraps it. -/
theorem shared_cache_handle_identity_witness :
    googleConfig.http_service = none ∧
    googleConfig2.grpc_service = googleConfig.grpc_service ∧
    ∃ h fc1 fc2 t1 t2 v1 v2,
      (createFilterFactoryFromProtoTyped googleConfig "a" emptyCtx).1 =
        .ok (.googleGrpc h fc1 t1 googleConfig v1) ∧
      (createFilterFactoryFromProtoTyped googleConfig2 "b"
        (createFilterFactoryFromProtoTyped googleConfig "a" emptyCtx).2).1 =
        .ok (.googleGrpc h fc2 t2 googleConfig2 v2) ∧
      h = (getOrCreateAsyncClientCache emptyCtx
        googleConfig.grpc_service).1 ∧
      ∀ ctx2, (invokeCallback (.googleGrpc h fc1 t1 googleConfig v1)
          ctx2).1 =
          .ok ⟨fc1, .grpcClientImpl (.cached h) t1 v1 ctx2.nextAlloc⟩ ∧
        (invokeCallback (.googleGrpc h fc1 t1 googleConfig v1)
          ctx2).2.cache = ctx2.cache :=
  ⟨rfl, rfl, shared_cache_handle_identity googleConfig googleConfig2 "a" "b"
    emptyCtx rfl rfl rfl rfl rfl rfl⟩

/-- Claim C6 (confirmed): the dedicated (generic-gRPC) path never touches
the shared cache — neither at load time nor at invocation time — and every
successful invocation of such a callback constructs a fresh client, so two
sequential invocations of one callback, and an invocation of a second
block's callback with an equal descriptor, produce pairwise distinct client
objects. -/
theorem dedicated_clients_distinct (p1 p2 : ExtAuthz) (s1 s2 : String)
    (ctx0 ctx ctxA ctxB ctxC : FactoryContext) (cb1 cb2 : FilterFactoryCb)
    (f1 f2 f3 : Filter)
    (h1h : p1.http_service = none)
    (h1g : (p1.grpc_service).google_grpc = none)
    (h2h : p2.http_service = none)
    (hsvc : p2.grpc_service = p1.grpc_service)
    (hcb1 : (createFilterFactoryFromProtoTyped p1 s1 ctx0).1 = .ok cb1)
    (hcb2 : (createFilterFactoryFromProtoTyped p2 s2
      (createFilterFactoryFromProtoTyped p1 s1 ctx0).2).1 = .ok cb2)
    (h1 : invokeCallback cb1 ctx = (.ok f1, ctxA))
    (h2 : invokeCallback cb1 ctxA = (.ok f2, ctxB))
    (h3 : invokeCallback cb2 ctxB = (.ok f3, ctxC)) :
    (createFilterFactoryFromProtoTyped p2 s2
      (createFilterFactoryFromProtoTyped p1 s1 ctx0).2).2.cache =
      ctx0.cache ∧
    f1.client ≠ f2.client ∧ f1.client ≠ f3.client ∧ f2.client ≠ f3.client ∧
    ctxA.cache = ctx.cache ∧ ctxB.cache = ctx.cache ∧
    ctxC.cache = ctx.cache := by
  have h2g : (p2.grpc_service).google_grpc = none := by
    rw [hsvc]; exact h1g
  have L1 := createFilterFactory_generic p1 s1 ctx0 h1h h1g
  have L2 := createFilterFactory_generic p2 s2
    (createFilterFactoryFromProtoTyped p1 s1 ctx0).2 h2h h2g
  rw [L1] at hcb1
  replace hcb1 := Except.ok.inj hcb1
  rw [L2] at hcb2
  replace hcb2 := Except.ok.inj hcb2
  subst hcb1
  subst hcb2
  by_cases hm : p1.grpc_service ∈ ctx.knownServices
  · rw [invoke_generic_known _ _ _ _ _ _ hm] at h1
    injection h1 with hf1 hA
    replace hf1 := Except.ok.inj hf1
    subst hf1
    subst hA
    have hm2 : p1.grpc_service ∈
        ({ ctx with nextAlloc := ctx.nextAlloc + 2 } :
          FactoryContext).knownServices := hm
    rw [invoke_generic_known _ _ _ _ _ _ hm2] at h2
    injection h2 with hf2 hB
    replace hf2 := Except.ok.inj hf2
    subst hf2
    subst hB
    have hm3 : p2.grpc_service ∈
        ({ ({ ctx with nextAlloc := ctx.nextAlloc + 2 } : FactoryContext)
          with nextAlloc :=
            ({ ctx with nextAlloc := ctx.nextAlloc + 2 } :
              FactoryContext).nextAlloc + 2 } :
          FactoryContext).knownServices := by
      rw [hsvc]; exact hm
    rw [invoke_generic_known _ _ _ _ _ _ hm3] at h3
    injection h3 with hf3 hC
    replace hf3 := Except.ok.inj hf3
    subst hf3
    subst hC
    refine ⟨by rw [L2, L1], ?_, ?_, ?_, rfl, rfl, rfl⟩
    · exact AuthzClient.ne_of_objId _ _
        (by simp only [AuthzClient.objIdOf]; omega)
    · exact AuthzClient.ne_of_objId _ _
        (by simp only [AuthzClient.objIdOf]; omega)
    · exact AuthzClient.ne_of_objId _ _
        (by simp only [AuthzClient.objIdOf]; omega)
  · rw [invoke_generic_unknown _ _ _ _ _ _ hm] at h1
    injection h1 with hf1 hA
    cases hf1

/-- Claim C6 witness: two generic-gRPC blocks with the same descriptor,
loaded in sequence and each invoked in a known-service environment, yield
three pairwise distinct clients and never touch the cache. -/
theorem dedicated_clients_distinct_witness :
    invokeCallback
      (.genericGrpc genericSvc ⟨genericConfig, "a", 0⟩ 100 .V3 false)
      ctxKnown =
      (.ok ⟨⟨genericConfig, "a", 0⟩, .grpcClientImpl (.fresh 0) 100 .V3 1⟩,
        ⟨⟨[], 0⟩, 2, [genericSvc]⟩) ∧
    ((createFilterFactoryFromProtoTyped genericConfig2 "b"
      (createFilterFactoryFromProtoTyped genericConfig "a" emptyCtx).2).2.cache =
      emptyCtx.cache ∧
    (Filter.mk ⟨genericConfig, "a", 0⟩
        (.grpcClientImpl (.fresh 0) 100 .V3 1)).client ≠
      (Filter.mk ⟨genericConfig, "a", 0⟩
        (.grpcClientImpl (.fresh 2) 100 .V3 3)).client ∧
    (Filter.mk ⟨genericConfig, "a", 0⟩
        (.grpcClientImpl (.fresh 0) 100 .V3 1)).client ≠
      (Filter.mk ⟨genericConfig2, "b", 1⟩
        (.grpcClientImpl (.fresh 4) 100 .V2 5)).client ∧
    (Filter.mk ⟨genericConfig, "a", 0⟩
        (.grpcClientImpl (.fresh 2) 100 .V3 3)).client ≠
      (Filter.mk ⟨genericConfig2, "b", 1⟩
        (.grpcClientImpl (.fresh 4) 100 .V2 5)).client ∧
    (FactoryContext.mk ⟨[], 0⟩ 2 [genericSvc]).cache = ctxKnown.cache ∧
    (FactoryContext.mk ⟨[], 0⟩ 4 [genericSvc]).cache = ctxKnown.cache ∧
    (FactoryContext.mk ⟨[], 0⟩ 6 [genericSvc]).cache = ctxKnown.cache) := by
  constructor
  · rfl
  · exact dedicated_clients_distinct genericConfig genericConfig2 "a" "b"
      emptyCtx ctxKnown ⟨⟨[], 0⟩, 2, [genericSvc]⟩
      ⟨⟨[], 0⟩, 4, [genericSvc]⟩ ⟨⟨[], 0⟩, 6, [genericSvc]⟩
      (.genericGrpc genericSvc ⟨genericConfig, "a", 0⟩ 100 .V3 false)
      (.genericGrpc genericSvc ⟨genericConfig2, "b", 1⟩ 100 .V2 false)
      ⟨⟨genericConfig, "a", 0⟩, .grpcClientImpl (.fresh 0) 100 .V3 1⟩
      ⟨⟨genericConfig, "a", 0⟩, .grpcClientImpl (.fresh 2) 100 .V3 3⟩
      ⟨⟨genericConfig2, "b", 1⟩, .grpcClientImpl (.fresh 4) 100 .V2 5⟩
      rfl rfl rfl rfl rfl rfl rfl rfl rfl

end EnvoyExtAuthz
